import Mathlib

/-!
Shallow embedding of the appointment-booking core of the repository
(`app/controllers/appointmentController.py`), and proofs about it.

Times of day are modelled as minutes since midnight (a `Nat`): the wire
format `HH:MM` is zero-padded, so lexicographic order on the strings and
numeric order on the minutes coincide, and string equality coincides with
numeric equality for canonical times.  An availability interval string
`HH:MM-HH:MM` becomes an `TimeRange` of two minute values.

The model fixes one doctor and one calendar date: `availability` is the
entry of `availability_schedule` for the date's weekday and `bookedSlots`
is the entry of `booked_slots` for the date, exactly the two projections
every function under study reads.
-/

/-- An availability interval parsed from an `HH:MM-HH:MM` string,
as minutes of day. -/
structure TimeRange where
  start : Nat
  stop : Nat
deriving Repr, DecidableEq

/-- The fields of a doctor document read by the booking core, specialised
to one weekday and one date.  `availability` is
`availability_schedule[day_of_week]`, `bookedSlots` is
`booked_slots[date_str]`, `maxPatients` is `max_patients_per_day`
(source default 20), `slotDuration` is `time_slot_duration_minutes`
(source default 15), `verified` is `verified_by_admin`. -/
structure Doctor where
  availability : List TimeRange
  bookedSlots : List Nat
  maxPatients : Nat
  slotDuration : Nat
  verified : Bool
deriving Repr, DecidableEq

/-- Result of the availability guard `is_slot_available`: the source
returns a boolean plus a message string; each distinct message becomes a
constructor. -/
inductive SlotCheck where
  | doctorNotFound
  | closedThatDay
  | outsideHours
  | alreadyBooked
  | capacityReached
  | available
deriving Repr, DecidableEq

/-- The containment loop of `is_slot_available` (lines 81-88): scan the
day's intervals and accept when some interval has
`start_time <= time_obj < end_time`. -/
def inSomeInterval (avail : List TimeRange) (t : Nat) : Bool :=
  avail.any fun iv => decide (iv.start ≤ t) && decide (t < iv.stop)

/-- `is_slot_available(db, doctor_id, date_str, time_str)` (lines 56-106).
The date has already been resolved to the weekday's template; the
date-parse failure branch of the source concerns only malformed wire
input and is outside the model. -/
def is_slot_available (doctor : Option Doctor) (t : Nat) : SlotCheck :=
  match doctor with
  | none => .doctorNotFound
  | some d =>
    if d.availability.isEmpty then .closedThatDay
    else if !(inSomeInterval d.availability t) then .outsideHours
    else if d.bookedSlots.contains t then .alreadyBooked
    else if d.maxPatients ≤ d.bookedSlots.length then .capacityReached
    else .available

/-- The slot-generation loop of `get_available_slots` (lines 159-164):
`current_slot = start; while current_slot < end: emit; current_slot += d`,
written with explicit fuel so it is structural.  One loop iteration
consumes one unit of fuel; with `0 < d` the loop runs at most
`stop - current` times, so any fuel above that bound gives the loop's
exact output.  (With `d = 0` the source loop diverges; all claims assume
a positive duration.) -/
def slotsLoop : Nat → Nat → Nat → Nat → List Nat
  | 0, _, _, _ => []
  | fuel + 1, current, stop, d =>
    if current < stop then current :: slotsLoop fuel (current + d) stop d
    else []

/-- Start times emitted for one interval `[start, stop)` with slot
duration `d`, per the loop above.  Fuel `stop + 1` is sufficient for any
`d ≥ 1` since the loop body runs at most `stop - start` times. -/
def slotsFrom (stop d startMin : Nat) : List Nat :=
  slotsLoop (stop + 1) startMin stop d

/-- `get_available_slots(doctor_id, date)` (lines 109-195), state level:
`none` is the doctor-not-found 404; otherwise the `available_slots` field
of the 200 response.  An empty weekday template and a reached capacity
both answer with an empty slot list; otherwise each interval is expanded,
times present in `booked_slots[date]` are dropped, and the concatenation
is sorted ascending (Python `list.sort`, modelled by insertion sort —
both are stable comparison sorts, and only the sorted output matters). -/
def get_available_slots (doctor : Option Doctor) : Option (List Nat) :=
  match doctor with
  | none => none
  | some d =>
    if d.availability.isEmpty then some []
    else
      let all_slots :=
        (d.availability.map fun iv =>
          (slotsFrom iv.stop d.slotDuration iv.start).filter
            fun t => !(d.bookedSlots.contains t)).flatten
      if d.maxPatients ≤ d.bookedSlots.length then some []
      else some (all_slots.insertionSort (· ≤ ·))

/-- An appointment document: `_id`, `user_id`, `doctor_id`,
`appointment_time` (the date is the model's fixed date), `status` kept as
the string the source stores. -/
structure Appt where
  id : Nat
  userId : Nat
  doctorId : Nat
  time : Nat
  status : String
deriving Repr, DecidableEq

/-- The store, restricted to one doctor (with `_id` `doctorId`) and the
appointments collection. -/
structure StoreState where
  doctorId : Nat
  doctor : Doctor
  appts : List Appt
deriving Repr, DecidableEq

/-- Mongo `$addToSet`: append the value unless already present. -/
def addToSet (l : List Nat) (x : Nat) : List Nat :=
  if l.contains x then l else l ++ [x]

/-- Mongo `$pull`: remove every occurrence of the value. -/
def pull (l : List Nat) (x : Nat) : List Nat :=
  l.filter fun y => !(y == x)

/-- Result of `book_appointment`; `booked` is the 201 response, the
others the 4xx responses (the doctor-missing 404 cannot arise here since
the store holds the doctor). -/
inductive BookResult where
  | booked (apptId : Nat)
  | unverified
  | unavailable (r : SlotCheck)
deriving Repr, DecidableEq

/-- `book_appointment` (lines 198-291), state level, run to completion
without interleaving: check `verified_by_admin`, run the
`is_slot_available` guard, then insert the appointment with status
`scheduled` and `$addToSet` the time into `booked_slots[date]`.  (The
`$push` onto the user's `active_appointments` and the `active_patients`
`$addToSet` touch no state this model reads.) -/
def book_appointment (s : StoreState) (userId time newId : Nat) :
    StoreState × BookResult :=
  if !s.doctor.verified then (s, .unverified)
  else
    match is_slot_available (some s.doctor) time with
    | .available =>
      ({ s with
          doctor := { s.doctor with
            bookedSlots := addToSet s.doctor.bookedSlots time },
          appts := s.appts ++ [⟨newId, userId, s.doctorId, time, "scheduled"⟩] },
       .booked newId)
    | r => (s, .unavailable r)

/-- A Python value bound to the name `status` inside
`update_appointment_status`.  The source imports the `fastapi.status`
module at line 1, but the function's own query parameter
`status: str` (line 369) shadows it for the whole body, including the
`except` handler. -/
inductive PyVal where
  | module
  | str (s : String)
deriving Repr, DecidableEq

/-- Python attribute access `status.HTTP_<code>_...`: on the
`fastapi.status` module it yields the numeric code; on a string it
raises AttributeError, modelled as `none`. -/
def pyGetHTTPStatusAttr : PyVal → Nat → Option Nat
  | .module, code => some code
  | .str _, _ => none

/-- Outcome of one `update_appointment_status` call: the store state
after the call and `some (code, message)` when the function returns an
HTTP response, `none` when an exception escapes (the `except` handler at
lines 441-445 itself evaluates `status.HTTP_500_INTERNAL_SERVER_ERROR`
on the shadowed string and re-raises, so the framework surfaces an
internal server error). -/
structure UpdateOutcome where
  state : StoreState
  http : Option (Nat × String)
deriving Repr, DecidableEq

/-- The `valid_statuses` list of line 377. -/
def valid_statuses : List String := ["scheduled", "completed", "cancelled"]

/-- `update_appointment_status(appointment_id, status, current_user)`
(lines 367-445).  `target` is the `status` query parameter, `actorId`
the authenticated user's `_id`.  Control flow follows the source:
validate the target status, look up the appointment, authorise the actor
(the owning patient, or a doctor whose own `_id` equals the
appointment's `doctor_id`), `$set` the status, and when the target is
`cancelled` and the prior status was not, `$pull` the time from
`booked_slots[date]`.  Every response construction evaluates
`status.HTTP_...` on `statusName`, the value the name `status` denotes
in the body: the string parameter. -/
def update_appointment_status (s : StoreState) (apptId : Nat)
    (target : String) (actorId : Nat) : UpdateOutcome :=
  let statusName := PyVal.str target
  if !(valid_statuses.contains target) then
    match pyGetHTTPStatusAttr statusName 400 with
    | some c => ⟨s, some (c, "Invalid status")⟩
    | none => ⟨s, none⟩
  else
    match s.appts.find? (fun a => a.id == apptId) with
    | none =>
      match pyGetHTTPStatusAttr statusName 404 with
      | some c => ⟨s, some (c, "Appointment not found")⟩
      | none => ⟨s, none⟩
    | some appt =>
      let isPatient := appt.userId == actorId
      let isDoctor := !isPatient && actorId == s.doctorId
        && appt.doctorId == s.doctorId
      if !(isPatient || isDoctor) then
        match pyGetHTTPStatusAttr statusName 403 with
        | some c => ⟨s, some (c, "Forbidden")⟩
        | none => ⟨s, none⟩
      else
        let s1 := { s with appts := s.appts.map fun a =>
          if a.id == apptId then { a with status := target } else a }
        let s2 :=
          if target == "cancelled" && !(appt.status == "cancelled") then
            { s1 with doctor := { s1.doctor with
                bookedSlots := pull s1.doctor.bookedSlots appt.time } }
          else s1
        match pyGetHTTPStatusAttr statusName 200 with
        | some c => ⟨s2, some (c, "updated")⟩
        | none => ⟨s2, none⟩

/-!
Interleaving semantics for concurrent `book_appointment` calls.  Per §5 of
the spec, each request is an independent worker that suspends only at
store round-trips; the source performs, in order, the read-only guard
(doctor reads plus all `is_slot_available` checks), the `insert_one` of
the appointment, and the `update_one` `$addToSet` on `booked_slots`.
Each round-trip is one atomic step; the read-only guard is collapsed to a
single step (its several reads commute with each other).
-/

/-- One in-flight `book_appointment` call: its arguments, its program
counter (0 = about to run the guard, 1 = about to insert the
appointment, 2 = about to `$addToSet` the slot, 3 = done), and its
response once finished. -/
structure BookThread where
  userId : Nat
  time : Nat
  newId : Nat
  pc : Nat
  result : Option BookResult
deriving Repr, DecidableEq

/-- One atomic step of an in-flight `book_appointment` call against the
shared store, following the source's statement order. -/
def stepBook (s : StoreState) (th : BookThread) : StoreState × BookThread :=
  match th.pc with
  | 0 =>
    if !s.doctor.verified then
      (s, { th with pc := 3, result := some .unverified })
    else
      match is_slot_available (some s.doctor) th.time with
      | .available => (s, { th with pc := 1 })
      | r => (s, { th with pc := 3, result := some (.unavailable r) })
  | 1 =>
    ({ s with appts :=
        s.appts ++ [⟨th.newId, th.userId, s.doctorId, th.time, "scheduled"⟩] },
     { th with pc := 2 })
  | 2 =>
    ({ s with doctor := { s.doctor with
        bookedSlots := addToSet s.doctor.bookedSlots th.time } },
     { th with pc := 3, result := some (.booked th.newId) })
  | _ => (s, th)

/-- Two concurrent `book_appointment` calls over one shared store. -/
structure ConcState where
  store : StoreState
  th1 : BookThread
  th2 : BookThread
deriving Repr, DecidableEq

/-- Let one of the two calls take its next atomic step
(`true` = first call). -/
def stepConc (c : ConcState) (choice : Bool) : ConcState :=
  if choice then
    let p := stepBook c.store c.th1
    { c with store := p.1, th1 := p.2 }
  else
    let p := stepBook c.store c.th2
    { c with store := p.1, th2 := p.2 }

/-- Run a schedule: the list picks which call steps next. -/
def runConc (c : ConcState) : List Bool → ConcState
  | [] => c
  | b :: rest => runConc (stepConc c b) rest

/-- Number of appointments in status `scheduled` for the given time on
the model's fixed doctor and date. -/
def scheduledCount (s : StoreState) (time : Nat) : Nat :=
  (s.appts.filter fun a => a.time == time && a.status == "scheduled").length

/-!
Concrete fixtures used by the theorems below.
-/

/-- A verified doctor available 09:00-10:00 (minutes 540-600), slot
duration 15, capacity 20, nothing booked. -/
def docNineToTen : Doctor := ⟨[⟨540, 600⟩], [], 20, 15, true⟩

/-- A template whose intervals overlap: the same 09:00-09:30 interval
listed twice. -/
def docOverlap : Doctor := ⟨[⟨540, 570⟩, ⟨540, 570⟩], [], 20, 15, true⟩

/-- Capacity 1 with one slot already booked at 09:15: the day is full
although 09:00 is free. -/
def docAtCapacity : Doctor := ⟨[⟨540, 600⟩], [555], 1, 15, true⟩

/-- Store with one scheduled appointment at 09:00 (patient 10,
doctor 1) whose slot is recorded in `booked_slots`. -/
def sScheduled : StoreState :=
  ⟨1, ⟨[⟨540, 600⟩], [540], 20, 15, true⟩, [⟨100, 10, 1, 540, "scheduled"⟩]⟩

/-- Store with one completed appointment at 09:00. -/
def sCompleted : StoreState :=
  ⟨1, docNineToTen, [⟨100, 10, 1, 540, "completed"⟩]⟩

/-- Store with one cancelled appointment at 09:00. -/
def sCancelled : StoreState :=
  ⟨1, docNineToTen, [⟨100, 10, 1, 540, "cancelled"⟩]⟩

/-- Two concurrent `book_appointment` calls (patients 10 and 11, fresh
appointment ids 100 and 101) for 09:00 with the same doctor, both about
to run their availability guard over an empty booked-slot list. -/
def raceInit : ConcState :=
  ⟨⟨1, docNineToTen, []⟩, ⟨10, 540, 100, 0, none⟩, ⟨11, 540, 101, 0, none⟩⟩

/-!
Helper lemmas.
-/

/-- Exact output of the slot loop: with positive duration and enough
fuel, the loop emits precisely the `d`-step times below `stop`. -/
theorem mem_slotsLoop (d : Nat) (hd : 0 < d) (stop t : Nat) :
    ∀ fuel current, stop ≤ current + fuel →
      (t ∈ slotsLoop fuel current stop d ↔ ∃ k, t = current + k * d ∧ t < stop) := by
  intro fuel
  induction fuel with
  | zero =>
    intro current h
    simp only [slotsLoop, List.not_mem_nil, false_iff]
    rintro ⟨k, hk, hlt⟩
    rw [hk] at hlt
    generalize k * d = m at hlt
    omega
  | succ fuel ih =>
    intro current h
    simp only [slotsLoop]
    by_cases hc : current < stop
    · rw [if_pos hc, List.mem_cons, ih (current + d) (by omega)]
      constructor
      · rintro (rfl | ⟨k, hk, hlt⟩)
        · exact ⟨0, by simp, hc⟩
        · exact ⟨k + 1, by rw [hk]; ring, hlt⟩
      · rintro ⟨k, hk, hlt⟩
        cases k with
        | zero => left; simpa using hk
        | succ k => right; exact ⟨k, by rw [hk]; ring, hlt⟩
    · rw [if_neg hc]
      simp only [List.not_mem_nil, false_iff]
      rintro ⟨k, hk, hlt⟩
      rw [hk] at hlt
      generalize k * d = m at hlt
      omega

/-- The `$set` of `update_appointment_status` at the list level: mapping
the status update over the collection relocates the `find?` result. -/
theorem find?_map_setStatus (l : List Appt) (apptId : Nat) (target : String)
    (appt : Appt) (h : l.find? (fun a => a.id == apptId) = some appt) :
    (l.map fun a => if a.id == apptId then { a with status := target } else a).find?
      (fun a => a.id == apptId) = some { appt with status := target } := by
  induction l with
  | nil => simp at h
  | cons x xs ih =>
    simp only [List.map_cons]
    by_cases hx : (x.id == apptId) = true
    · rw [List.find?_cons_of_pos (p := fun (a : Appt) => a.id == apptId) _ hx] at h
      cases h
      rw [if_pos hx]
      exact List.find?_cons_of_pos (p := fun (a : Appt) => a.id == apptId) _ hx
    · rw [List.find?_cons_of_neg (p := fun (a : Appt) => a.id == apptId) _ hx] at h
      rw [if_neg hx, List.find?_cons_of_neg (p := fun (a : Appt) => a.id == apptId) _ hx]
      exact ih h

/-- Cancelling an appointment whose prior status is `scheduled` pulls
its time from the doctor's booked slots. -/
theorem cancel_scheduled_pulls (s : StoreState) (apptId actorId : Nat) (appt : Appt)
    (hfind : s.appts.find? (fun a => a.id == apptId) = some appt)
    (hpatient : appt.userId = actorId)
    (hsched : appt.status = "scheduled") :
    (update_appointment_status s apptId "cancelled" actorId).state.doctor.bookedSlots
      = pull s.doctor.bookedSlots appt.time := by
  have hbeq : (appt.userId == actorId) = true := by simpa using hpatient
  have hstat : (appt.status == "cancelled") = false := by
    rw [hsched]; decide
  unfold update_appointment_status
  simp only [show valid_statuses.contains "cancelled" = true from by decide,
    Bool.not_true, Bool.false_eq_true, if_false, hfind, hbeq,
    Bool.true_or, pyGetHTTPStatusAttr, hstat, beq_self_eq_true, Bool.not_false,
    Bool.and_self, Bool.true_and, Bool.and_true, if_true]

/-- Cancelling an appointment whose prior status is already `cancelled`
leaves the doctor's booked slots untouched. -/
theorem cancel_cancelled_noop (s : StoreState) (apptId actorId : Nat) (appt : Appt)
    (hfind : s.appts.find? (fun a => a.id == apptId) = some appt)
    (hpatient : appt.userId = actorId)
    (hcanc : appt.status = "cancelled") :
    (update_appointment_status s apptId "cancelled" actorId).state.doctor.bookedSlots
      = s.doctor.bookedSlots := by
  have hbeq : (appt.userId == actorId) = true := by simpa using hpatient
  have hstat : (appt.status == "cancelled") = true := by
    rw [hcanc]; decide
  unfold update_appointment_status
  simp only [Bool.not_true, Bool.false_eq_true, if_false, hfind, hbeq,
    Bool.true_or, pyGetHTTPStatusAttr, hstat]
  split <;> rfl

/-!
Claim theorems.
-/

/-- C1: refuted on the source (the claim describes the intended
guarantee).  The booking path is guard-then-insert with no atomic
conditional reservation: under the interleaving in which both guards run
before either write, both `book` calls for the same (doctor, date, time)
return success and two appointments for that triple end up in status
`scheduled`, where the claim demands exactly one success, one conflict,
and at most one scheduled appointment. -/
theorem booking_race_double_books :
    ((runConc raceInit [true, false, true, true, false, false]).th1.result
        = some (.booked 100)) ∧
    ((runConc raceInit [true, false, true, true, false, false]).th2.result
        = some (.booked 101)) ∧
    scheduledCount (runConc raceInit [true, false, true, true, false, false]).store 540
        = 2 := by
  decide

/-- C2 (amended): for positive duration `d` the Slot Expander emits
exactly the times `start + k * d` that are strictly below the interval
end; in particular every emitted time is below `end`, but a trailing
slot whose extent `t + d` runs past `end` is still emitted when the
interval length is not a multiple of `d`. -/
theorem slot_expander_exact_steps (stop d startMin t : Nat) (hd : 0 < d) :
    t ∈ slotsFrom stop d startMin ↔ ∃ k, t = startMin + k * d ∧ t < stop :=
  mem_slotsLoop d hd stop t (stop + 1) startMin (by omega)

/-- C2 witness: duration 15 is positive, and 09:45 is emitted for the
interval 09:00-10:00 as the step `540 + 3 * 15 < 600`. -/
theorem slot_expander_exact_steps_witness :
    0 < 15 ∧ (585 ∈ slotsFrom 600 15 540 ↔ ∃ k, 585 = 540 + k * 15 ∧ 585 < 600) :=
  ⟨by decide, slot_expander_exact_steps 600 15 540 585 (by decide)⟩

/-- C2 counterexample: for the interval 09:00-10:10 (540-610) with
duration 15 the expander emits 10:00 (600), although `600 + 15 > 610`:
the trailing partial slot is not discarded. -/
theorem slot_expander_emits_past_interval_end :
    600 ∈ slotsFrom 610 15 540 ∧ 610 < 600 + 15 := by decide

/-- C3 (amended): `update_appointment_status` overwrites the status with
any valid requested status regardless of the prior status; `completed`
and `cancelled` are not enforced as terminal. -/
theorem update_status_ignores_prior_status (s : StoreState) (apptId : Nat)
    (target : String) (actorId : Nat) (appt : Appt)
    (hv : target ∈ valid_statuses)
    (hfind : s.appts.find? (fun a => a.id == apptId) = some appt)
    (hpatient : appt.userId = actorId) :
    ((update_appointment_status s apptId target actorId).state.appts.find?
        (fun a => a.id == apptId)) = some { appt with status := target } := by
  have hcontains : valid_statuses.contains target = true := by simpa using hv
  have hbeq : (appt.userId == actorId) = true := by simpa using hpatient
  unfold update_appointment_status
  rw [hcontains]
  simp only [Bool.not_true, Bool.false_eq_true, if_false, hfind, hbeq,
    Bool.true_or, Bool.not_true]
  simp only [pyGetHTTPStatusAttr]
  split
  · exact find?_map_setStatus _ _ _ _ hfind
  · exact find?_map_setStatus _ _ _ _ hfind

/-- C3 witness: the owning patient moves a `cancelled` appointment to
`completed` — a transition out of a terminal state that the source
performs without complaint. -/
theorem update_status_ignores_prior_status_witness :
    (update_appointment_status sCancelled 100 "completed" 10).state.appts.find?
        (fun a => a.id == 100) = some ⟨100, 10, 1, 540, "completed"⟩ :=
  update_status_ignores_prior_status sCancelled 100 "completed" 10
    ⟨100, 10, 1, 540, "cancelled"⟩ (by decide) (by decide) rfl

/-- C3 counterexample: an appointment in terminal status `completed` is
moved back to `scheduled` by a single `update_appointment_status` call
from the owning patient. -/
theorem completed_status_overwritten :
    (update_appointment_status sCompleted 100 "scheduled" 10).state.appts
      = [⟨100, 10, 1, 540, "scheduled"⟩] := by decide

/-- C4: refuted on the source (the claim describes the intended error
design).  Because the `status` query parameter shadows the
`fastapi.status` module, every response construction in
`update_appointment_status` raises AttributeError — the invalid-status,
not-found, forbidden and even success paths all surface as an internal
error (`http = none`), never as the structured 400/404/403/200
responses. -/
theorem update_status_responses_all_crash :
    ((update_appointment_status sScheduled 100 "confirmed" 10).http = none) ∧
    ((update_appointment_status sScheduled 999 "cancelled" 10).http = none) ∧
    ((update_appointment_status sScheduled 100 "cancelled" 77).http = none) ∧
    ((update_appointment_status sScheduled 100 "completed" 10).http = none) := by
  decide

/-- C5: the Availability Evaluator runs its checks in source order,
short-circuiting on the first failure: missing doctor, then empty
weekday template, then interval containment, then already-booked, then
the day-level capacity gate (reported even though the requested time
itself is free). -/
theorem availability_checks_in_source_order (d : Doctor) (t : Nat) :
    (is_slot_available none t = .doctorNotFound) ∧
    (d.availability = [] → is_slot_available (some d) t = .closedThatDay) ∧
    (d.availability ≠ [] → inSomeInterval d.availability t = false →
      is_slot_available (some d) t = .outsideHours) ∧
    (inSomeInterval d.availability t = true → t ∈ d.bookedSlots →
      is_slot_available (some d) t = .alreadyBooked) ∧
    (inSomeInterval d.availability t = true → t ∉ d.bookedSlots →
      d.maxPatients ≤ d.bookedSlots.length →
      is_slot_available (some d) t = .capacityReached) := by
  refine ⟨rfl, ?_, ?_, ?_, ?_⟩
  · intro h
    simp [is_slot_available, h]
  · intro hne hout
    have he : d.availability.isEmpty = false := by
      simpa [List.isEmpty_iff] using hne
    simp [is_slot_available, he, hout]
  · intro hin hmem
    have hne : d.availability.isEmpty = false := by
      cases he : d.availability.isEmpty
      · rfl
      · rw [List.isEmpty_iff] at he
        rw [he] at hin
        simp [inSomeInterval] at hin
    simp [is_slot_available, hne, hin, hmem]
  · intro hin hmem hcap
    have hne : d.availability.isEmpty = false := by
      cases he : d.availability.isEmpty
      · rfl
      · rw [List.isEmpty_iff] at he
        rw [he] at hin
        simp [inSomeInterval] at hin
    simp [is_slot_available, hne, hin, hmem, hcap]

/-- C5 witness: with capacity 1 and one booked slot at 09:15, the free
time 09:00 is refused with the capacity reason. -/
theorem availability_checks_in_source_order_witness :
    is_slot_available (some docAtCapacity) 540 = .capacityReached :=
  (availability_checks_in_source_order docAtCapacity 540).2.2.2.2
    (by decide) (by decide) (by decide)

/-- C6: interval containment is half-open: the containment check accepts
a time iff some interval satisfies `start <= time < stop`, and a request
exactly at an interval's end (10:00 for 09:00-10:00) is rejected as
outside hours. -/
theorem interval_containment_half_open :
    (∀ (avail : List TimeRange) (t : Nat),
      inSomeInterval avail t = true ↔ ∃ iv ∈ avail, iv.start ≤ t ∧ t < iv.stop) ∧
    is_slot_available (some docNineToTen) 600 = .outsideHours := by
  refine ⟨?_, by decide⟩
  intro avail t
  simp [inSomeInterval, List.any_eq_true]

/-- C7: once the booked-slot count for the date reaches
`max_patients_per_day`, listing available slots returns the empty list,
no matter which expanded times remain unbooked. -/
theorem capacity_reached_empty_listing (d : Doctor)
    (hcap : d.maxPatients ≤ d.bookedSlots.length) :
    get_available_slots (some d) = some [] := by
  unfold get_available_slots
  by_cases he : d.availability.isEmpty <;> simp [he, hcap]

/-- C7 witness: capacity 1, one booking at 09:15 — the listing for the
day is empty although 09:00, 09:30 and 09:45 are unbooked. -/
theorem capacity_reached_empty_listing_witness :
    get_available_slots (some docAtCapacity) = some [] :=
  capacity_reached_empty_listing docAtCapacity (by decide)

/-- The book → cancel → re-book scenario for the identical
(doctor, date, time): patient 10 books 09:00 (appointment 100), cancels
it, and books 09:00 again under fresh appointment id 101. -/
def bookCancelRebook : StoreState × BookResult :=
  let p1 := book_appointment ⟨1, docNineToTen, []⟩ 10 540 100
  let s2 := (update_appointment_status p1.1 100 "cancelled" 10).state
  book_appointment s2 10 540 101

/-- C8: transitioning into `cancelled` from `scheduled` pulls the booked
time from the doctor's booked slots; transitioning when the prior status
is already `cancelled` releases nothing; and booking a slot, cancelling
it, then re-booking the identical slot succeeds. -/
theorem cancellation_frees_slot :
    (∀ (s : StoreState) (apptId actorId : Nat) (appt : Appt),
      s.appts.find? (fun a => a.id == apptId) = some appt →
      appt.userId = actorId → appt.status = "scheduled" →
      (update_appointment_status s apptId "cancelled" actorId).state.doctor.bookedSlots
        = pull s.doctor.bookedSlots appt.time) ∧
    (∀ (s : StoreState) (apptId actorId : Nat) (appt : Appt),
      s.appts.find? (fun a => a.id == apptId) = some appt →
      appt.userId = actorId → appt.status = "cancelled" →
      (update_appointment_status s apptId "cancelled" actorId).state.doctor.bookedSlots
        = s.doctor.bookedSlots) ∧
    bookCancelRebook.2 = .booked 101 :=
  ⟨cancel_scheduled_pulls, cancel_cancelled_noop, by decide⟩

/-- C8 witness: cancelling the scheduled 09:00 appointment removes 540
from the booked slots `[540]`. -/
theorem cancellation_frees_slot_witness :
    (update_appointment_status sScheduled 100 "cancelled" 10).state.doctor.bookedSlots
      = pull sScheduled.doctor.bookedSlots 540 :=
  cancellation_frees_slot.1 sScheduled 100 10 ⟨100, 10, 1, 540, "scheduled"⟩
    (by decide) rfl rfl

/-- C9 (amended): the available-slot list is always sorted ascending
(non-strictly), but duplicates arising from overlapping template
intervals are kept, not removed. -/
theorem available_slots_sorted (d : Doctor) (l : List Nat)
    (h : get_available_slots (some d) = some l) :
    List.Sorted (· ≤ ·) l := by
  simp only [get_available_slots] at h
  by_cases he : d.availability.isEmpty
  · rw [if_pos he] at h
    cases h
    exact List.sorted_nil
  · rw [if_neg he] at h
    by_cases hc : d.maxPatients ≤ d.bookedSlots.length
    · rw [if_pos hc] at h
      cases h
      exact List.sorted_nil
    · rw [if_neg hc] at h
      cases h
      exact List.sorted_insertionSort _ _

/-- C9 witness: the listing for the overlapping template is sorted. -/
theorem available_slots_sorted_witness :
    List.Sorted (· ≤ ·) [540, 540, 555, 555] :=
  available_slots_sorted docOverlap [540, 540, 555, 555] (by decide)

/-- C9 counterexample: with the 09:00-09:30 interval listed twice, the
listing contains 09:00 twice — duplicates are not removed. -/
theorem overlapping_intervals_duplicate_slots :
    get_available_slots (some docOverlap) = some [540, 540, 555, 555] ∧
    [540, 540, 555, 555].count 540 = 2 := by decide

/-- C10: the availability evaluator never reads the slot duration, so an
off-grid time inside an interval is bookable: 09:07 (547) with interval
09:00-10:00 and duration 15 evaluates as available and books
successfully, yet never appears in the day's slot listing. -/
theorem off_grid_time_bookable :
    (∀ (d : Doctor) (t k : Nat),
      is_slot_available (some { d with slotDuration := k }) t
        = is_slot_available (some d) t) ∧
    is_slot_available (some docNineToTen) 547 = .available ∧
    (book_appointment ⟨1, docNineToTen, []⟩ 20 547 100).2 = .booked 100 ∧
    get_available_slots (some docNineToTen) = some [540, 555, 570, 585] ∧
    [540, 555, 570, 585].contains 547 = false :=
  ⟨fun _ _ _ => rfl, by decide, by decide, by decide, by decide⟩
